import Mathlib

set_option maxRecDepth 100000

/-!
Verification of the adversarial training orchestrator of
`stylegan2-ada-3d-texture` (files `trainer/train_stylegan_real_feature_patch.py`
and `trainer/train_stylegan.py`), shallowly embedded in Lean.

Machine floats appear in the source only through their special values
(NaN, +Inf, -Inf) and the `torch.nan_to_num` sanitizer; we model a gradient
entry as either one of the three special values or an exact rational.
-/

/-- A tensor entry: NaN, +Inf, -Inf, or a finite value (modelled as a
rational). -/
inductive FVal where
  | nan : FVal
  | posInf : FVal
  | negInf : FVal
  | finite : ℚ → FVal
deriving DecidableEq, Repr

/-- `torch.nan_to_num(x, nan=0, posinf=1e5, neginf=-1e5)` applied to one
entry, as called by the `step` helper of
`train_stylegan_real_feature_patch.py` (line 381). -/
def nanToNum (v : FVal) : FVal :=
  match v with
  | FVal.nan => FVal.finite 0
  | FVal.posInf => FVal.finite 100000
  | FVal.negInf => FVal.finite (-100000)
  | FVal.finite q => FVal.finite q

/-- `True` iff the entry is NaN (`torch.isnan` on a scalar). -/
def isNan (v : FVal) : Bool :=
  match v with
  | FVal.nan => true
  | _ => false

/-- Multiplication of a tensor entry by a positive finite constant
(the configured `lambda_plp * interval` and `lambda_gp * interval`
factors are positive), with IEEE propagation of the special values. -/
def scaleByPos (c : ℚ) (v : FVal) : FVal :=
  match v with
  | FVal.nan => FVal.nan
  | FVal.posInf => FVal.posInf
  | FVal.negInf => FVal.negInf
  | FVal.finite q => FVal.finite (c * q)

/-- One parameter's gradient: `none` when `param.grad is None`. -/
abbrev Grad := Option FVal

/-- The per-parameter sanitization loop of the `step` helper
(`train_stylegan_real_feature_patch.py` lines 379-381): gradients that are
present are rewritten by `nan_to_num`; absent gradients are left alone. -/
def sanitizeGrads (grads : List Grad) : List Grad :=
  grads.map (fun g =>
    match g with
    | none => none
    | some v => some (nanToNum v))

/-! ## Step Scheduler (`training_step`) -/

/-- The sub-steps a training iteration can execute
(`train_stylegan_real_feature_patch.py` lines 207-233). -/
inductive SubStep where
  | setShapeCodes : SubStep
  | gStep : SubStep
  | gRegularizer : SubStep
  | emaUpdate : SubStep
  | dStep : SubStep
  | patchDStep : SubStep
  | dRegularizer : SubStep
  | patchDRegularizer : SubStep
  | adaUpdate : SubStep
deriving DecidableEq, Repr

/-- The cadence configuration fields read by `training_step`. -/
structure TrainConfig where
  lazy_path_penalty_after : Nat
  lazy_path_penalty_interval : Nat
  lazy_gradient_penalty_interval : Nat
  ada_interval : Nat

/-- The warm-up-gated cadence test of line 212:
`global_step > after and (global_step + 1) % interval == 0`. -/
def firesWithWarmup (interval warmup globalStep : Nat) : Bool :=
  decide (warmup < globalStep) && ((globalStep + 1) % interval == 0)

/-- The plain cadence test of lines 224 and 231:
`(global_step + 1) % interval == 0`. -/
def firesPlain (interval globalStep : Nat) : Bool :=
  (globalStep + 1) % interval == 0

/-- The sequence of sub-steps `training_step` executes at a given
`global_step` (`train_stylegan_real_feature_patch.py` lines 207-233; the
ADA cadence test is inside `execute_ada_heuristics`, lines 230-233). -/
def training_step (c : TrainConfig) (globalStep : Nat) : List SubStep :=
  [SubStep.setShapeCodes, SubStep.gStep]
    ++ (if firesWithWarmup c.lazy_path_penalty_interval c.lazy_path_penalty_after globalStep
        then [SubStep.gRegularizer] else [])
    ++ [SubStep.emaUpdate, SubStep.dStep, SubStep.patchDStep]
    ++ (if firesPlain c.lazy_gradient_penalty_interval globalStep
        then [SubStep.dRegularizer, SubStep.patchDRegularizer] else [])
    ++ (if firesPlain c.ada_interval globalStep then [SubStep.adaUpdate] else [])

/-- C1: a scheduled action (generator regularization, critic
regularization, ADA update) runs exactly on the iterations where
`global_step` exceeds the warm-up threshold (for the warm-up-gated
generator regularizer) and `(global_step + 1) % interval == 0`; with
interval 4 and warm-up 0 it fires exactly on steps 3, 7, 11, ... -/
theorem C1_scheduled_action_cadence (c : TrainConfig) (s : Nat) :
    (SubStep.gRegularizer ∈ training_step c s ↔
      (c.lazy_path_penalty_after < s ∧ (s + 1) % c.lazy_path_penalty_interval = 0))
    ∧ (SubStep.dRegularizer ∈ training_step c s ↔
      (s + 1) % c.lazy_gradient_penalty_interval = 0)
    ∧ (SubStep.adaUpdate ∈ training_step c s ↔ (s + 1) % c.ada_interval = 0)
    ∧ (firesWithWarmup 4 0 s = true ↔ ∃ k, s = 4 * k + 3) := by
  have hw : ∀ N W : Nat, (firesWithWarmup N W s = true ↔ (W < s ∧ (s + 1) % N = 0)) := by
    intro N W
    simp [firesWithWarmup]
  have hp : ∀ N : Nat, (firesPlain N s = true ↔ (s + 1) % N = 0) := by
    intro N
    simp [firesPlain]
  refine ⟨?_, ?_, ?_, ?_⟩
  · rw [← hw]
    by_cases h1 : firesWithWarmup c.lazy_path_penalty_interval c.lazy_path_penalty_after s <;>
      by_cases h2 : firesPlain c.lazy_gradient_penalty_interval s <;>
      by_cases h3 : firesPlain c.ada_interval s <;>
      simp [training_step, h1, h2, h3]
  · rw [← hp]
    by_cases h1 : firesWithWarmup c.lazy_path_penalty_interval c.lazy_path_penalty_after s <;>
      by_cases h2 : firesPlain c.lazy_gradient_penalty_interval s <;>
      by_cases h3 : firesPlain c.ada_interval s <;>
      simp [training_step, h1, h2, h3]
  · rw [← hp]
    by_cases h1 : firesWithWarmup c.lazy_path_penalty_interval c.lazy_path_penalty_after s <;>
      by_cases h2 : firesPlain c.lazy_gradient_penalty_interval s <;>
      by_cases h3 : firesPlain c.ada_interval s <;>
      simp [training_step, h1, h2, h3]
  · rw [hw]
    constructor
    · intro h
      exact ⟨s / 4, by omega⟩
    · intro h
      obtain ⟨k, hk⟩ := h
      subst hk
      exact ⟨by omega, by omega⟩

/-! ## Gradient sanitization around optimizer steps (C2, C9)

`train_stylegan_real_feature_patch.py` defines a helper
`step(opt, module)` (lines 378-382) that rewrites every present gradient
of `module.parameters()` with `nan_to_num` and then calls `opt.step()`.
The generator optimizer `g_opt` holds two parameter groups: the
generator `self.G` and the graph encoder `self.E`
(`configure_optimizers`, lines 56-59).  `g_step` calls
`step(g_opt, self.G)` (line 93), so `opt.step()` consumes the sanitized
`G` gradients and the untouched `E` gradients.

The base variant `train_stylegan.py` has no such helper: `g_step`
(lines 64-73) and the other sub-steps call `g_opt.step()` / `d_opt.step()`
directly on the raw gradients.
-/

/-- The gradients held by the generator optimizer of the patch trainer:
parameter group 0 is `self.G`, parameter group 1 is `self.E`. -/
structure GOptGrads where
  gGrads : List Grad
  eGrads : List Grad
deriving DecidableEq, Repr

/-- `step(g_opt, self.G)` in the patch trainer: sanitize the gradients of
the module that was passed (`self.G`) and leave every other parameter
group of the optimizer untouched; the result is the pair of gradient
lists that `opt.step()` then consumes. -/
def step_gOpt_on_G (s : GOptGrads) : GOptGrads :=
  { s with gGrads := sanitizeGrads s.gGrads }

/-- `g_step` of the base trainer `train_stylegan.py` (lines 64-73):
`g_opt.step()` is called directly, so the gradients the optimizer
consumes are the raw gradients. -/
def base_g_step_consumed (gGrads : List Grad) : List Grad :=
  gGrads

/-- C2 counterexample: in the base trainer variant `train_stylegan.py`,
the optimizer step of `g_step` consumes a NaN gradient as NaN — no
sanitization maps it to 0 — refuting the claim that sanitization is
applied before every optimizer step in every trainer variant. -/
theorem C2_counterexample :
    base_g_step_consumed [some FVal.nan] = [some FVal.nan]
    ∧ sanitizeGrads [some FVal.nan] = [some (FVal.finite 0)]
    ∧ FVal.nan ≠ FVal.finite 0 := by
  refine ⟨rfl, rfl, ?_⟩
  intro h
  cases h

/-- C2 (amended): in the trainer variants that define the `step` helper,
the gradients of the module passed to the helper are sanitized before
`opt.step()` — NaN becomes 0, +Inf becomes the large finite bound 1e5,
-Inf becomes -1e5, finite entries and absent gradients are unchanged —
while the base `train_stylegan.py` variant passes raw gradients to the
optimizer with no sanitization. -/
theorem C2_amended_sanitization (grads : List Grad) (s : GOptGrads) :
    (step_gOpt_on_G s).gGrads = s.gGrads.map (Option.map nanToNum)
    ∧ base_g_step_consumed grads = grads
    ∧ nanToNum FVal.nan = FVal.finite 0
    ∧ nanToNum FVal.posInf = FVal.finite 100000
    ∧ nanToNum FVal.negInf = FVal.finite (-100000)
    ∧ (∀ q : ℚ, nanToNum (FVal.finite q) = FVal.finite q)
    ∧ sanitizeGrads grads = grads.map (Option.map nanToNum) := by
  have hsan : ∀ l : List Grad, sanitizeGrads l = l.map (Option.map nanToNum) := by
    intro l
    unfold sanitizeGrads
    congr 1
    funext g
    cases g <;> rfl
  exact ⟨hsan s.gGrads, rfl, rfl, rfl, rfl, fun _ => rfl, hsan grads⟩

/-- C9: calling `step(g_opt, self.G)` sanitizes only the generator
group's gradients; the encoder group's gradients reach the optimizer
update exactly as they were, so a NaN (or Inf) gradient on an encoder
parameter is consumed unsanitized, while a NaN gradient on a generator
parameter is consumed as 0. -/
theorem C9_encoder_grads_unsanitized (s : GOptGrads) (i j : Nat)
    (hi : s.eGrads.get? i = some (some FVal.nan))
    (hj : s.gGrads.get? j = some (some FVal.nan)) :
    (step_gOpt_on_G s).eGrads.get? i = some (some FVal.nan)
    ∧ (step_gOpt_on_G s).gGrads.get? j = some (some (FVal.finite 0))
    ∧ (step_gOpt_on_G s).eGrads = s.eGrads := by
  refine ⟨by rw [step_gOpt_on_G]; exact hi, ?_, rfl⟩
  show (sanitizeGrads s.gGrads).get? j = some (some (FVal.finite 0))
  unfold sanitizeGrads
  rw [List.get?_map, hj]
  rfl

/-- Witness for `C9_encoder_grads_unsanitized` at a concrete optimizer
state. -/
theorem C9_encoder_grads_unsanitized_witness :
    (step_gOpt_on_G ⟨[some FVal.nan], [some FVal.nan, some (FVal.finite 2)]⟩).eGrads.get? 0
        = some (some FVal.nan)
    ∧ (step_gOpt_on_G ⟨[some FVal.nan], [some FVal.nan, some (FVal.finite 2)]⟩).gGrads.get? 0
        = some (some (FVal.finite 0))
    ∧ (step_gOpt_on_G ⟨[some FVal.nan], [some FVal.nan, some (FVal.finite 2)]⟩).eGrads
        = [some FVal.nan, some (FVal.finite 2)] := by
  exact C9_encoder_grads_unsanitized ⟨[some FVal.nan], [some FVal.nan, some (FVal.finite 2)]⟩ 0 0 rfl rfl

/-! ## Regularizer NaN policy (C4)

`g_regularizer` (`train_stylegan_real_feature_patch.py` lines 97-112)
guards its backward pass and optimizer step with
`if not torch.isnan(plp)`.  `d_regularizer` (lines 174-185) and
`patch_d_regularizer` (lines 187-201) have no such guard: they always
call `manual_backward(disc_loss)` and `step(d_opt, ...)`.  We model each
regularizer sub-step by the loss it hands to the backward pass, `none`
meaning the backward pass and optimizer step were skipped.
-/

/-- `g_regularizer`: the loss `lambda_plp * plp * interval` is built and
sent to backward/step only when `plp` is not NaN (lines 108-112). -/
def g_regularizer_update (lambda_plp interval : ℚ) (plp : FVal) : Option FVal :=
  if isNan plp then none else some (scaleByPos (lambda_plp * interval) plp)

/-- `d_regularizer`: the loss `lambda_gp * gp * interval` is sent to
backward/step unconditionally (lines 181-184); there is no NaN guard. -/
def d_regularizer_update (lambda_gp interval : ℚ) (gp : FVal) : Option FVal :=
  some (scaleByPos (lambda_gp * interval) gp)

/-- C4 counterexample: a NaN critic gradient penalty does not abort the
critic regularization sub-step — `d_regularizer` still performs the
backward pass and optimizer step (with concrete weights
`lambda_gp = 1`, `interval = 16`), refuting the claim that every
regularization sub-step skips its update on a NaN loss. -/
theorem C4_counterexample :
    d_regularizer_update 1 16 FVal.nan = some FVal.nan
    ∧ g_regularizer_update 1 2 FVal.nan = none := by
  exact ⟨rfl, rfl⟩

/-- C4 (amended): only the generator path-length regularizer checks for
NaN — it skips its backward pass and optimizer update exactly when the
computed penalty is NaN — while the critic gradient-penalty regularizers
always perform the backward pass and optimizer step; the NaN then
reaches the gradients, which the `step` helper sanitizes to 0 before the
optimizer update (so it is still not fatal). -/
theorem C4_amended_nan_policy (lp lg iv : ℚ) :
    (∀ plp : FVal, (g_regularizer_update lp iv plp = none ↔ isNan plp = true))
    ∧ (∀ gp : FVal, (d_regularizer_update lg iv gp).isSome = true)
    ∧ (∀ gp : FVal, isNan gp = true →
        d_regularizer_update lg iv gp = some FVal.nan)
    ∧ sanitizeGrads [some FVal.nan] = [some (FVal.finite 0)] := by
  refine ⟨?_, ?_, ?_, rfl⟩
  · intro plp
    unfold g_regularizer_update
    cases h : isNan plp <;> simp [h]
  · intro gp
    rfl
  · intro gp hgp
    cases gp <;> simp_all [isNan, d_regularizer_update, scaleByPos]

/-- Witness for `C4_amended_nan_policy` at concrete weights and a NaN
penalty. -/
theorem C4_amended_nan_policy_witness :
    (g_regularizer_update 2 4 FVal.nan = none ↔ isNan FVal.nan = true)
    ∧ (d_regularizer_update 3 4 FVal.nan).isSome = true
    ∧ (isNan FVal.nan = true → d_regularizer_update 3 4 FVal.nan = some FVal.nan)
    ∧ sanitizeGrads [some FVal.nan] = [some (FVal.finite 0)] := by
  obtain ⟨h1, h2, h3, h4⟩ := C4_amended_nan_policy 2 3 4
  exact ⟨h1 FVal.nan, h2 FVal.nan, fun h => h3 FVal.nan h, h4⟩

/-! ## Shadow Parameter Tracker (EMA) (C5, C6)

The `ExponentialMovingAverage` class comes from the external `torch_ema`
package (`from torch_ema import ExponentialMovingAverage`); its code is
not part of this repository's sources.  Its `store` / `copy_to` /
`restore` operations are therefore modelled from the spec.  The caller
(`validation_epoch_end`) is in the sources and is embedded from them.
-/

/-- Modelled from the spec: the state of the `torch_ema`
`ExponentialMovingAverage` object, whose class is an external dependency
absent from the repository sources.  Per spec section 4.4, it holds a
shadow copy of the parameters and, after `store()`, a saved copy of the
live values.  A parameter tensor is modelled as one rational. -/
structure EMAState where
  shadow : List ℚ
  collected : List ℚ
deriving DecidableEq, Repr

/-- Modelled from the spec: `store()` saves the current live parameter
values aside. -/
def ema_store (e : EMAState) (live : List ℚ) : EMAState :=
  { e with collected := live }

/-- Modelled from the spec: `copy_to(targets)` overwrites the live
parameters, element by element, with the shadow values. -/
def ema_copy_to (e : EMAState) (live : List ℚ) : List ℚ :=
  List.zipWith (fun _ s => s) live e.shadow

/-- Modelled from the spec: `restore(targets)` reinstates, element by
element, the values saved by `store()`. -/
def ema_restore (e : EMAState) (live : List ℚ) : List ℚ :=
  List.zipWith (fun _ c => c) live e.collected

/-- Elementwise overwrite of a list by an equally long list gives back
the second list. -/
theorem zipWith_snd_eq (a b : List ℚ) (h : a.length = b.length) :
    List.zipWith (fun _ c => c) a b = b := by
  induction a generalizing b with
  | nil =>
      cases b with
      | nil => rfl
      | cons x xs => simp at h
  | cons x xs ih =>
      cases b with
      | nil => simp at h
      | cons y ys =>
          simp only [List.zipWith]
          rw [ih ys (by simpa using h)]

/-- Shared helper: the `store`/`copy_to`/`restore` round trip restores
the live values (the shadow set being in one-to-one correspondence with
the live parameters). -/
theorem ema_roundtrip_aux (live : List ℚ) (e : EMAState)
    (h : e.shadow.length = live.length) :
    ema_restore (ema_store e live) (ema_copy_to (ema_store e live) live) = live := by
  unfold ema_restore ema_store ema_copy_to
  simp only
  apply zipWith_snd_eq
  rw [List.length_zipWith, h]
  simp

/-- C5: `store(); copy_to(x); restore(x)` leaves the live parameters
equal to their values before `store()` was called, for arbitrary
parameter values (the shadow set being in one-to-one correspondence with
the live parameters). -/
theorem C5_store_copy_restore_roundtrip (live : List ℚ) (e : EMAState)
    (h : e.shadow.length = live.length) :
    ema_restore (ema_store e live) (ema_copy_to (ema_store e live) live) = live :=
  ema_roundtrip_aux live e h

/-- Witness for `C5_store_copy_restore_roundtrip` at concrete parameter
values. -/
theorem C5_store_copy_restore_roundtrip_witness :
    ema_restore (ema_store ⟨[5, 6], []⟩ [1, 2])
      (ema_copy_to (ema_store ⟨[5, 6], []⟩ [1, 2]) [1, 2]) = [1, 2] :=
  C5_store_copy_restore_roundtrip [1, 2] ⟨[5, 6], []⟩ rfl

/-- The EMA bracket of `validation_epoch_end`
(`train_stylegan_real_feature_patch.py` lines 239-262, same shape in
`train_stylegan.py` lines 158-166): `ema.store`; `ema.copy_to`; the
export/evaluation code; `ema.restore`.  The sequence is straight-line —
there is no `try`/`finally` or context manager around it — so when the
evaluation code raises, the exception propagates before `restore` runs.
`evalRaises` abstracts whether any evaluation code between `copy_to` and
`restore` raises; the result is the final live parameters and whether an
exception escaped. -/
def validation_epoch_end_live (evalRaises : Bool) (live : List ℚ) (e : EMAState) :
    List ℚ × Bool :=
  let e1 := ema_store e live
  let live1 := ema_copy_to e1 live
  if evalRaises then (live1, true)
  else (ema_restore e1 live1, false)

/-- C6 counterexample: if the evaluation code between `copy_to` and
`restore` raises, the live parameters are left holding the shadow (EMA)
values, not their pre-`store` values — with live `[1]` and shadow `[2]`,
the failed run ends with live `[2]` — refuting the claimed guaranteed
restoration at every failure point. -/
theorem C6_counterexample :
    validation_epoch_end_live true [1] ⟨[2], []⟩ = ([2], true)
    ∧ ([2] : List ℚ) ≠ [1] := by
  refine ⟨rfl, ?_⟩
  intro h
  have : (2 : ℚ) = 1 := by
    have := List.head_eq_of_cons_eq h
    exact this
  norm_num at this

/-- C6 (amended): the `store` → `copy_to` → evaluation → `restore`
sequence restores the pre-`store` live parameters only when the
evaluation code completes without raising; if it raises, the exception
escapes `validation_epoch_end` before `restore` runs and the live
parameters keep the shadow values that `copy_to` wrote. -/
theorem C6_amended_restore_only_on_success (live : List ℚ) (e : EMAState)
    (h : e.shadow.length = live.length) :
    validation_epoch_end_live false live e = (live, false)
    ∧ validation_epoch_end_live true live e = (ema_copy_to (ema_store e live) live, true) := by
  constructor
  · unfold validation_epoch_end_live
    simp only [if_neg (by simp : ¬(false = true))]
    rw [ema_roundtrip_aux live e h]
  · rfl

/-- Witness for `C6_amended_restore_only_on_success` at concrete
parameter values. -/
theorem C6_amended_restore_only_on_success_witness :
    validation_epoch_end_live false [3] ⟨[7], []⟩ = ([3], false)
    ∧ validation_epoch_end_live true [3] ⟨[7], []⟩
        = (ema_copy_to (ema_store ⟨[7], []⟩ [3]) [3], true) :=
  C6_amended_restore_only_on_success [3] ⟨[7], []⟩ rfl

/-! ## Augmentation Controller (ADA) (C8)

`execute_ada_heuristics` calls `self.augment_pipe.heuristic_update()`;
the `AugmentPipe` class lives in `model/augment.py`, which is not among
the repository sources available here, so the update is modelled from
the spec.
-/

/-- Modelled from the spec: `AugmentPipe.heuristic_update`
(`model/augment.py`, absent from the sources).  Per spec section 4.3,
the accumulated sign estimate `r` is compared with the target; the
augmentation probability is moved by a step proportional to the cadence
length and a configured speed constant, in the direction given by the
sign of the error, and is always clamped to `[0, 1]`. -/
def heuristic_update (p r target speed : ℚ) (interval : Nat) : ℚ :=
  let adjust := (if target < r then (1 : ℚ) else -1) * (interval : ℚ) * speed
  min 1 (max 0 (p + adjust))

/-- C8: after every ADA heuristic update the augmentation probability
lies in `[0, 1]`, however extreme the accumulated sign statistic (and
the current probability) are. -/
theorem C8_aug_probability_bounds (p r target speed : ℚ) (interval : Nat) :
    0 ≤ heuristic_update p r target speed interval
    ∧ heuristic_update p r target speed interval ≤ 1 := by
  unfold heuristic_update
  constructor
  · apply le_min
    · norm_num
    · exact le_max_left 0 _
  · exact min_le_left 1 _

/-! ## Patch Sampler (`extract_patches_from_tensor`) (C3, C7, C10)

`train_stylegan_real_feature_patch.py` lines 351-375.  For each image:
the coordinates of the non-zero mask pixels, the bounding box of those
coordinates, a filter keeping centers strictly more than
`patch_size // 2 + 1` away from every bounding-box edge,
`random.sample` over the surviving centers, and crops over the
half-open ranges `[c - patch_size // 2, c + patch_size // 2)`.
Coordinates are embedded as integers, mirroring Python arithmetic.
-/

/-- A single-channel mask of given height and width (`mask[idx]`). -/
structure MaskT where
  height : Nat
  width : Nat
  val : Nat → Nat → ℚ

/-- `torch.nonzero(mask > 0)`: the coordinates, in row-major order, of
the pixels with positive mask value (line 355). -/
def nonzero_coords (m : MaskT) : List (Nat × Nat) :=
  (List.range m.height).flatMap (fun y =>
    (List.range m.width).filterMap (fun x =>
      if 0 < m.val y x then some (y, x) else none))

/-- Head-biased minimum of a list (`tensor.min()` on a non-empty list). -/
def minD (l : List Nat) : Nat :=
  match l with
  | [] => 0
  | a :: t => t.foldl min a

/-- Head-biased maximum of a list (`tensor.max()` on a non-empty list). -/
def maxD (l : List Nat) : Nat :=
  match l with
  | [] => 0
  | a :: t => t.foldl max a

/-- `y_min` of the non-zero bounding box (line 356). -/
def bboxYMin (m : MaskT) : Int :=
  (minD ((nonzero_coords m).map Prod.fst) : Int)

/-- `y_max` of the non-zero bounding box (line 356). -/
def bboxYMax (m : MaskT) : Int :=
  (maxD ((nonzero_coords m).map Prod.fst) : Int)

/-- `x_min` of the non-zero bounding box (line 357). -/
def bboxXMin (m : MaskT) : Int :=
  (minD ((nonzero_coords m).map Prod.snd) : Int)

/-- `x_max` of the non-zero bounding box (line 357). -/
def bboxXMax (m : MaskT) : Int :=
  (maxD ((nonzero_coords m).map Prod.snd) : Int)

/-- The filter of lines 358-362: a non-zero coordinate survives iff
`y_min + ps//2 + 1 < y < y_max - ps//2 - 1` and likewise for `x`. -/
def valid_centers (m : MaskT) (patch_size : Nat) : List (Nat × Nat) :=
  (nonzero_coords m).filter (fun c =>
    decide (bboxYMin m + (patch_size / 2 : Nat) + 1 < (c.1 : Int))
      && decide ((c.1 : Int) < bboxYMax m - (patch_size / 2 : Nat) - 1)
      && decide (bboxXMin m + (patch_size / 2 : Nat) + 1 < (c.2 : Int))
      && decide ((c.2 : Int) < bboxXMax m - (patch_size / 2 : Nat) - 1))

/-- The candidate-center set in the words of the spec (for comparison
with `valid_centers`): keep exactly the non-zero coordinates NOT closer
than `size/2 + 1` to any bounding-box edge, i.e. at distance at least
`size/2 + 1` from each edge. -/
def claim_centers (m : MaskT) (patch_size : Nat) : List (Nat × Nat) :=
  (nonzero_coords m).filter (fun c =>
    decide (bboxYMin m + (patch_size / 2 : Nat) + 1 ≤ (c.1 : Int))
      && decide ((c.1 : Int) ≤ bboxYMax m - (patch_size / 2 : Nat) - 1)
      && decide (bboxXMin m + (patch_size / 2 : Nat) + 1 ≤ (c.2 : Int))
      && decide ((c.2 : Int) ≤ bboxXMax m - (patch_size / 2 : Nat) - 1))

/-- The integers of the half-open interval `[lo, hi)`. -/
def intRange (lo hi : Int) : List Int :=
  (List.range (hi - lo).toNat).map (fun (i : Nat) => lo + (i : Int))

/-- The row indices of the crop at a center: the slice
`y - ps//2 : y + ps//2` of line 369. -/
def crop_rows (c : Nat × Nat) (patch_size : Nat) : List Int :=
  intRange ((c.1 : Int) - (patch_size / 2 : Nat)) ((c.1 : Int) + (patch_size / 2 : Nat))

/-- The column indices of the crop at a center: the slice
`x - ps//2 : x + ps//2` of line 369. -/
def crop_cols (c : Nat × Nat) (patch_size : Nat) : List Int :=
  intRange ((c.2 : Int) - (patch_size / 2 : Nat)) ((c.2 : Int) + (patch_size / 2 : Nat))

/-- Members of `intRange lo hi` lie in `[lo, hi)`. -/
theorem mem_intRange_bounds (lo hi r : Int) (h : r ∈ intRange lo hi) :
    lo ≤ r ∧ r < hi := by
  unfold intRange at h
  rw [List.mem_map] at h
  obtain ⟨i, hmem, rfl⟩ := h
  rw [List.mem_range] at hmem
  omega

/-- A fully lit 10 x 10 mask, used as concrete input. -/
def mask10 : MaskT := ⟨10, 10, fun _ _ => 1⟩

/-- C3 counterexample: on a fully lit 10 x 10 mask with patch size 4,
the center `(3, 3)` lies at distance exactly `4/2 + 1 = 3` from the
bounding-box edges, so per the claim it is a remaining candidate that
sampling may return — but the code's filter discards it (the code keeps
only centers at distance strictly greater than `size/2 + 1`). -/
theorem C3_counterexample :
    (3, 3) ∈ claim_centers mask10 4 ∧ (3, 3) ∉ valid_centers mask10 4 := by
  constructor
  · decide
  · decide

/-- C3 (amended): the code keeps exactly the non-zero coordinates at
distance strictly greater than `size/2 + 1` (i.e. at least `size/2 + 2`)
from every bounding-box edge, and every crop taken at a surviving center
— over the half-open ranges `[c - size/2, c + size/2)` — lies entirely
strictly inside the bounding box of the mask's non-zero pixels. -/
theorem C3_amended_containment (m : MaskT) (ps : Nat) (c : Nat × Nat)
    (hc : c ∈ valid_centers m ps) :
    (c ∈ nonzero_coords m
      ∧ bboxYMin m + (ps / 2 : Nat) + 1 < (c.1 : Int)
      ∧ (c.1 : Int) < bboxYMax m - (ps / 2 : Nat) - 1
      ∧ bboxXMin m + (ps / 2 : Nat) + 1 < (c.2 : Int)
      ∧ (c.2 : Int) < bboxXMax m - (ps / 2 : Nat) - 1)
    ∧ (∀ r ∈ crop_rows c ps, bboxYMin m < r ∧ r < bboxYMax m)
    ∧ (∀ q ∈ crop_cols c ps, bboxXMin m < q ∧ q < bboxXMax m) := by
  unfold valid_centers at hc
  rw [List.mem_filter] at hc
  obtain ⟨hmem, hcond⟩ := hc
  simp only [Bool.and_eq_true, decide_eq_true_eq] at hcond
  obtain ⟨⟨⟨h1, h2⟩, h3⟩, h4⟩ := hcond
  refine ⟨⟨hmem, h1, h2, h3, h4⟩, ?_, ?_⟩
  · intro r hr
    have := mem_intRange_bounds _ _ r hr
    omega
  · intro q hq
    have := mem_intRange_bounds _ _ q hq
    omega

/-- Witness for `C3_amended_containment`: the center `(4, 4)` survives
the filter on the fully lit 10 x 10 mask with patch size 4, and its crop
stays strictly inside the bounding box. -/
theorem C3_amended_containment_witness :
    ((4, 4) ∈ nonzero_coords mask10
      ∧ bboxYMin mask10 + (4 / 2 : Nat) + 1 < ((4 : Nat) : Int)
      ∧ ((4 : Nat) : Int) < bboxYMax mask10 - (4 / 2 : Nat) - 1
      ∧ bboxXMin mask10 + (4 / 2 : Nat) + 1 < ((4 : Nat) : Int)
      ∧ ((4 : Nat) : Int) < bboxXMax mask10 - (4 / 2 : Nat) - 1)
    ∧ (∀ r ∈ crop_rows (4, 4) 4, bboxYMin mask10 < r ∧ r < bboxYMax mask10)
    ∧ (∀ q ∈ crop_cols (4, 4) 4, bboxXMin mask10 < q ∧ q < bboxXMax mask10) :=
  C3_amended_containment mask10 4 (4, 4) (by decide)

/-- `random.sample(range(n), k)` (line 363): raises `ValueError` — a
hard failure, modelled as `none` — exactly when `k` exceeds the
population size; otherwise it returns the drawn index list, abstracted
here as the parameter `sel` supplied by the process's random source. -/
def python_sample (n k : Nat) (sel : List Nat) : Option (List Nat) :=
  if k ≤ n then some sel else none

/-- The per-image body of `extract_patches_from_tensor`
(lines 354-372): filter the candidate centers, draw
`patches_per_view` of them through `random.sample`, and return the
chosen centers (each then cropped); a `random.sample` failure
propagates. -/
def extract_patches_one (m : MaskT) (count patch_size : Nat) (sel : List Nat) :
    Option (List (Nat × Nat)) :=
  match python_sample (valid_centers m patch_size).length count sel with
  | none => none
  | some s => some (s.map (fun i => (valid_centers m patch_size).getD i (0, 0)))

/-- C7: when an image's mask yields fewer valid centers than the
requested count, patch extraction fails hard (the error propagates to
the caller); it never returns fewer patches than requested and never
retries with a smaller count — on success the result has exactly the
requested length.  `sel` abstracts the random draw; only its length is
assumed, so the hypothesis is satisfiable whether or not enough valid
centers exist (on failure `random.sample` raises before any draw is
consumed). -/
theorem C7_insufficient_centers_hard_failure (m : MaskT) (count ps : Nat)
    (sel : List Nat) (hsel : sel.length = count) :
    (extract_patches_one m count ps sel = none
      ↔ (valid_centers m ps).length < count)
    ∧ (∀ l, extract_patches_one m count ps sel = some l → l.length = count) := by
  unfold extract_patches_one python_sample
  by_cases h : count ≤ (valid_centers m ps).length
  · rw [if_pos h]
    constructor
    · constructor
      · intro hcontra
        cases hcontra
      · intro hlt
        omega
    · intro l hl
      cases hl
      rw [List.length_map]
      exact hsel
  · rw [if_neg h]
    constructor
    · constructor
      · intro _
        omega
      · intro _
        rfl
    · intro l hl
      cases hl

/-- Witness for `C7_insufficient_centers_hard_failure`, exercising the
insufficient-centers case: the fully lit 10 x 10 mask with patch size 4
has exactly 4 valid centers, so requesting 5 patches fails hard
(evaluates to `none`), while requesting 2 succeeds with exactly 2
patches. -/
theorem C7_insufficient_centers_hard_failure_witness :
    ((extract_patches_one mask10 5 4 [0, 1, 2, 3, 4] = none
        ↔ (valid_centers mask10 4).length < 5)
      ∧ (∀ l, extract_patches_one mask10 5 4 [0, 1, 2, 3, 4] = some l → l.length = 5))
    ∧ extract_patches_one mask10 5 4 [0, 1, 2, 3, 4] = none
    ∧ (valid_centers mask10 4).length = 4
    ∧ ((extract_patches_one mask10 2 4 [0, 1] = none
        ↔ (valid_centers mask10 4).length < 2)
      ∧ (∀ l, extract_patches_one mask10 2 4 [0, 1] = some l → l.length = 2)) := by
  refine ⟨C7_insufficient_centers_hard_failure mask10 5 4 [0, 1, 2, 3, 4] rfl, ?_, ?_,
    C7_insufficient_centers_hard_failure mask10 2 4 [0, 1] rfl⟩
  · decide
  · decide

/-- C10: a crop spans the half-open range `[c - ps//2, c + ps//2)` in
each axis, so it has `2 * (ps / 2)` pixels per side; this equals the
promised patch size exactly when the patch size is even — for an odd
patch size each side is `ps - 1` and the element-count equation that the
final `reshape` to `(batch, count, channels, ps, ps)` (lines 373-374)
requires fails. -/
theorem C10_crop_even_size (c : Nat × Nat) (ps b count : Nat)
    (hb : 1 ≤ b) (hcount : 1 ≤ count) :
    (crop_rows c ps).length = 2 * (ps / 2)
    ∧ (crop_cols c ps).length = 2 * (ps / 2)
    ∧ ((crop_rows c ps).length = ps ↔ ps % 2 = 0)
    ∧ (ps % 2 = 1 → (crop_rows c ps).length = ps - 1)
    ∧ ((b * count * 3) * ((crop_rows c ps).length * (crop_cols c ps).length)
        = (b * count * 3) * (ps * ps) ↔ ps % 2 = 0) := by
  have hlen : ∀ lo hi : Int, (intRange lo hi).length = (hi - lo).toNat := by
    intro lo hi
    unfold intRange
    rw [List.length_map, List.length_range]
  have hrow : (crop_rows c ps).length = 2 * (ps / 2) := by
    unfold crop_rows
    rw [hlen]
    omega
  have hcol : (crop_cols c ps).length = 2 * (ps / 2) := by
    unfold crop_cols
    rw [hlen]
    omega
  refine ⟨hrow, hcol, ?_, ?_, ?_⟩
  · rw [hrow]
    omega
  · intro hodd
    rw [hrow]
    omega
  · rw [hrow, hcol]
    have hB : 0 < b * count * 3 := by positivity
    constructor
    · intro heq
      have hfac : 2 * (ps / 2) * (2 * (ps / 2)) = ps * ps :=
        Nat.eq_of_mul_eq_mul_left hB heq
      have : 2 * (ps / 2) = ps := by
        have := Nat.mul_self_inj.mp hfac
        exact this
      omega
    · intro heven
      have : 2 * (ps / 2) = ps := by omega
      rw [this]

/-- Witness for `C10_crop_even_size` at a concrete center, batch and
count. -/
theorem C10_crop_even_size_witness :
    (crop_rows (4, 4) 4).length = 2 * (4 / 2)
    ∧ (crop_cols (4, 4) 4).length = 2 * (4 / 2)
    ∧ ((crop_rows (4, 4) 4).length = 4 ↔ 4 % 2 = 0)
    ∧ (4 % 2 = 1 → (crop_rows (4, 4) 4).length = 4 - 1)
    ∧ ((1 * 2 * 3) * ((crop_rows (4, 4) 4).length * (crop_cols (4, 4) 4).length)
        = (1 * 2 * 3) * (4 * 4) ↔ 4 % 2 = 0) :=
  C10_crop_even_size (4, 4) 4 1 2 (by decide) (by decide)
